import Mathlib

/-!
# Logitech bus mouse driver (drivers/input/mouse/logibm.c)

A shallow embedding of the driver: the interrupt handler, open, close, module
load and module unload are functions in a state monad over a simulated kernel.
The simulated kernel holds the resources the driver touches and a trace of
every externally visible action, in program order.
-/

namespace Logibm

/-! ## Port and command constants (logibm.c lines 50-69) -/

def LOGDBM_BASE : Nat := 0x23c
def LOGDBM_EXTENT : Nat := 4

def LOGDBM_DATA_PORT : Nat := LOGDBM_BASE + 0
def LOGDBM_SIGNATURE_PORT : Nat := LOGDBM_BASE + 1
def LOGDBM_CONTROL_PORT : Nat := LOGDBM_BASE + 2
def LOGDBM_CONFIG_PORT : Nat := LOGDBM_BASE + 3

def LOGDBM_ENABLE_IRQ : Nat := 0x00
def LOGDBM_DISABLE_IRQ : Nat := 0x10
def LOGDBM_READ_X_LOW : Nat := 0x80
def LOGDBM_READ_X_HIGH : Nat := 0xa0
def LOGDBM_READ_Y_LOW : Nat := 0xc0
def LOGDBM_READ_Y_HIGH : Nat := 0xe0

def LOGDBM_DEFAULT_MODE : Nat := 0x90
def LOGDBM_CONFIG_BYTE : Nat := 0x91
def LOGDBM_SIGNATURE_BYTE : Nat := 0xa5

def LOGDBM_IRQ : Nat := 5

/-! ## Kernel constants and types the driver uses -/

/-- Modelled from the spec: the errno constant behind the resource-in-use
error; its header (errno-base.h) is not among the sources. The value is the
one every Linux port uses. -/
def EBUSY : Int := 16

/-- Modelled from the spec: the errno constant behind the device-not-found
condition; its header is not among the sources. The value is the one every
Linux port uses. -/
def ENODEV : Int := 19

/-- Modelled from the spec: the errno constant behind the allocation failure;
its header is not among the sources. The value is the one every Linux port
uses. -/
def ENOMEM : Int := 12

/-- Modelled from the spec: the handled / not-handled signal an interrupt
handler returns (irqreturn.h is not among the sources). -/
inductive irqreturn_t where
  | IRQ_NONE
  | IRQ_HANDLED
  | IRQ_WAKE_THREAD
  deriving DecidableEq

/-- Relative axes the driver reports. -/
inductive RelCode where
  | REL_X
  | REL_Y
  deriving DecidableEq

/-- Buttons the driver reports. -/
inductive KeyCode where
  | BTN_LEFT
  | BTN_RIGHT
  | BTN_MIDDLE
  deriving DecidableEq

/-- Who holds an exclusive resource (the port range, the interrupt line). -/
inductive Holder where
  | nobody
  | driver
  | other
  deriving DecidableEq

/-- The descriptor filled in by logibm_init (logibm.c lines 149-162). -/
structure input_dev where
  name : String
  phys : String
  vendor : Nat
  product : Nat
  version : Nat
  evbit_key : Bool
  evbit_rel : Bool
  keybit : List KeyCode
  relbit : List RelCode
  has_open : Bool
  has_close : Bool
  deriving DecidableEq

/-- One externally visible action of the driver. -/
inductive Event where
  | outb (value port : Nat)
  | inb (port : Nat) (value : Fin 256)
  | udelay (usecs : Nat)
  | report_rel (code : RelCode) (value : Int)
  | report_key (code : KeyCode) (value : Int)
  | sync
  | request_irq (irq : Nat) (ret : Int)
  | free_irq (irq : Nat)
  | request_region (start len : Nat) (ok : Bool)
  | release_region (start len : Nat)
  | allocate_device (ok : Bool)
  | free_device
  | register_device (ret : Int)
  | unregister_device
  deriving DecidableEq

/-- Outcomes of the steps the driver does not control. -/
structure Env where
  /-- the byte the hardware answers to the n-th port read, per port -/
  port_in : Nat → Nat → Fin 256
  /-- whether input_allocate_device finds memory -/
  alloc_ok : Bool
  /-- what input_register_device returns (0 on success) -/
  register_ret : Int
  /-- what request_irq returns on a free line (0 on success) -/
  irq_ret : Int
  /-- whether plain char is a signed type in the ABI the driver is built for
  (signed on x86; unsigned on arm and powerpc or under -funsigned-char) -/
  char_signed : Bool

/-- The simulated kernel. -/
structure Kernel where
  env : Env
  /-- the module parameter logibm_irq (line 71) -/
  logibm_irq : Nat
  /-- the global logibm_dev (line 75) -/
  logibm_dev : Option input_dev
  /-- holder of the port range LOGDBM_BASE .. LOGDBM_BASE + 3 -/
  region : Holder
  /-- holder of the interrupt line logibm_irq -/
  irq_line : Holder
  /-- a descriptor is allocated and not yet freed -/
  dev_live : Bool
  /-- a descriptor is registered with the input core -/
  dev_registered : Bool
  /-- number of port reads done so far -/
  nreads : Nat
  /-- everything done so far, oldest first -/
  trace : List Event

abbrev K := StateM Kernel

/-! ## C integer conversions

The source declares dx and dy as plain char (line 79) and C leaves the
signedness of plain char to the ABI, so the conversion to char takes the
signedness as an argument. Conversions to an 8-bit type wrap modulo 256. The
C int is 32 bits wide and no value computed here leaves the range -256..255,
so int arithmetic is modelled on unbounded integers. -/

/-- Conversion of an int to plain char: to -128..127 where plain char is
signed, to 0..255 where it is unsigned. -/
def to_char (signed : Bool) (n : Int) : Int :=
  if signed then (n + 128) % 256 - 128 else n % 256

/-- Conversion of an int to unsigned char. -/
def to_uchar (n : Int) : Int := n % 256

/-! ## Kernel primitives -/

/-- Modelled from the spec: byte write to a port; recorded in the trace. -/
def outb (value port : Nat) : K Unit :=
  modify fun k => { k with trace := k.trace ++ [Event.outb value port] }

/-- Modelled from the spec: byte read from a port; the hardware answers with
the next byte of the simulated port space. The result has type u8. -/
def inb (port : Nat) : K Int := do
  let k ← get
  let v := k.env.port_in port k.nreads
  set { k with nreads := k.nreads + 1, trace := k.trace ++ [Event.inb port v] }
  return (v.val : Int)

/-- Modelled from the spec: the fixed settle delay. -/
def udelay (usecs : Nat) : K Unit :=
  modify fun k => { k with trace := k.trace ++ [Event.udelay usecs] }

/-- Modelled from the spec: report of a relative motion to the input core. -/
def input_report_rel (code : RelCode) (value : Int) : K Unit :=
  modify fun k => { k with trace := k.trace ++ [Event.report_rel code value] }

/-- Modelled from the spec: report of a button state to the input core; the
button counts as pressed when the value is not zero. -/
def input_report_key (code : KeyCode) (value : Int) : K Unit :=
  modify fun k => { k with trace := k.trace ++ [Event.report_key code value] }

/-- Modelled from the spec: the synchronization marker. -/
def input_sync : K Unit :=
  modify fun k => { k with trace := k.trace ++ [Event.sync] }

/-- Modelled from the spec: acquisition of the interrupt line, not shared
(flags 0). It fails with the busy error when the line has a holder, and
otherwise returns what the environment dictates; on 0 the driver holds the
line. -/
def request_irq (irq : Nat) : K Int := do
  let k ← get
  let ret := if k.irq_line = Holder.nobody then k.env.irq_ret else -EBUSY
  set { k with
    irq_line := if ret = 0 then Holder.driver else k.irq_line,
    trace := k.trace ++ [Event.request_irq irq ret] }
  return ret

/-- Modelled from the spec: release of the interrupt line. The call is
recorded; the line becomes free when the driver held it. -/
def free_irq (irq : Nat) : K Unit :=
  modify fun k => { k with
    irq_line := if k.irq_line = Holder.driver then Holder.nobody else k.irq_line,
    trace := k.trace ++ [Event.free_irq irq] }

/-- Modelled from the spec: request for exclusive ownership of the port range;
it succeeds exactly when nobody holds the range. -/
def request_region (start len : Nat) : K Bool := do
  let k ← get
  let ok := decide (k.region = Holder.nobody)
  set { k with
    region := if ok then Holder.driver else k.region,
    trace := k.trace ++ [Event.request_region start len ok] }
  return ok

/-- Modelled from the spec: release of the port range. -/
def release_region (start len : Nat) : K Unit :=
  modify fun k => { k with
    region := if k.region = Holder.driver then Holder.nobody else k.region,
    trace := k.trace ++ [Event.release_region start len] }

/-- Modelled from the spec: allocation of a blank descriptor; none when the
environment has no memory. -/
def input_allocate_device : K (Option input_dev) := do
  let k ← get
  let ok := k.env.alloc_ok
  set { k with
    dev_live := k.dev_live || ok,
    trace := k.trace ++ [Event.allocate_device ok] }
  return if ok then
    some { name := "", phys := "", vendor := 0, product := 0, version := 0,
           evbit_key := false, evbit_rel := false, keybit := [], relbit := [],
           has_open := false, has_close := false }
  else none

/-- Modelled from the spec: release of an allocated descriptor. -/
def input_free_device : K Unit :=
  modify fun k => { k with dev_live := false, trace := k.trace ++ [Event.free_device] }

/-- Modelled from the spec: registration with the input core; on 0 the core
owns the descriptor. -/
def input_register_device : K Int := do
  let k ← get
  let ret := k.env.register_ret
  set { k with
    dev_registered := k.dev_registered || decide (ret = 0),
    trace := k.trace ++ [Event.register_device ret] }
  return ret

/-- Modelled from the spec: removal from the input core, which also frees the
descriptor. -/
def input_unregister_device : K Unit :=
  modify fun k => { k with
    dev_registered := false, dev_live := false,
    trace := k.trace ++ [Event.unregister_device] }

/-! ## The driver -/

/-- The value of the local variable buttons after line 91,
buttons = ~buttons >> 5, for the byte b of the fourth read: the unsigned char
is promoted to int, complemented, shifted right arithmetically and converted
back to unsigned char. -/
def logibm_buttons (b : Int) : Int :=
  to_uchar (Int.shiftRight (Int.not b) 5)

/-- The interrupt handler, logibm.c lines 77-102. The first line fetches the
signedness of plain char, which decides the type of dx and dy. -/
def logibm_interrupt : K irqreturn_t := do
  let abi := (← get).env.char_signed
  outb LOGDBM_READ_X_LOW LOGDBM_CONTROL_PORT
  let mut dx := to_char abi (Int.land (← inb LOGDBM_DATA_PORT) 0xf)
  outb LOGDBM_READ_X_HIGH LOGDBM_CONTROL_PORT
  dx := to_char abi (Int.lor dx (Int.land (← inb LOGDBM_DATA_PORT) 0xf <<< (4 : Int)))
  outb LOGDBM_READ_Y_LOW LOGDBM_CONTROL_PORT
  let mut dy := to_char abi (Int.land (← inb LOGDBM_DATA_PORT) 0xf)
  outb LOGDBM_READ_Y_HIGH LOGDBM_CONTROL_PORT
  let mut buttons := to_uchar (← inb LOGDBM_DATA_PORT)
  dy := to_char abi (Int.lor dy (Int.land buttons 0xf <<< (4 : Int)))
  buttons := logibm_buttons buttons

  input_report_rel RelCode.REL_X dx
  input_report_rel RelCode.REL_Y dy
  input_report_key KeyCode.BTN_RIGHT (Int.land buttons 1)
  input_report_key KeyCode.BTN_MIDDLE (Int.land buttons 2)
  input_report_key KeyCode.BTN_LEFT (Int.land buttons 4)
  input_sync

  outb LOGDBM_ENABLE_IRQ LOGDBM_CONTROL_PORT
  return irqreturn_t.IRQ_HANDLED

/-- The label err_release_region of logibm_init (lines 172-175). -/
def err_release_region (err : Int) : K Int := do
  release_region LOGDBM_BASE LOGDBM_EXTENT
  return err

/-- The label err_free_dev of logibm_init (lines 170-175); it falls through
to err_release_region. -/
def err_free_dev (err : Int) : K Int := do
  input_free_device
  err_release_region err

/-- Activation, logibm.c lines 104-112. The log line is not modelled. -/
def logibm_open : K Int := do
  if (← request_irq (← get).logibm_irq) ≠ 0 then
    return -EBUSY
  else
    outb LOGDBM_ENABLE_IRQ LOGDBM_CONTROL_PORT
    return 0

/-- Deactivation, logibm.c lines 114-118. -/
def logibm_close : K Unit := do
  outb LOGDBM_DISABLE_IRQ LOGDBM_CONTROL_PORT
  free_irq (← get).logibm_irq

/-- Module load, logibm.c lines 120-176. The log lines are not modelled. -/
def logibm_init : K Int := do
  if !(← request_region LOGDBM_BASE LOGDBM_EXTENT) then
    return -EBUSY
  else
    outb LOGDBM_CONFIG_BYTE LOGDBM_CONFIG_PORT
    outb LOGDBM_SIGNATURE_BYTE LOGDBM_SIGNATURE_PORT
    udelay 100

    if (← inb LOGDBM_SIGNATURE_PORT) ≠ (LOGDBM_SIGNATURE_BYTE : Int) then
      err_release_region (-ENODEV)
    else
      outb LOGDBM_DEFAULT_MODE LOGDBM_CONFIG_PORT
      outb LOGDBM_DISABLE_IRQ LOGDBM_CONTROL_PORT

      let dev ← input_allocate_device
      modify fun k => { k with logibm_dev := dev }
      match dev with
      | none => err_release_region (-ENOMEM)
      | some d =>
        modify fun k => { k with logibm_dev := some { d with
          name := "Logitech bus mouse",
          phys := "isa023c/input0",
          vendor := 0x0003,
          product := 0x0001,
          version := 0x0100,
          evbit_key := true,
          evbit_rel := true,
          keybit := [KeyCode.BTN_LEFT, KeyCode.BTN_MIDDLE, KeyCode.BTN_RIGHT],
          relbit := [RelCode.REL_X, RelCode.REL_Y],
          has_open := true,
          has_close := true } }

        let err ← input_register_device
        if err ≠ 0 then
          err_free_dev err
        else
          return 0

/-- Module unload, logibm.c lines 178-182. -/
def logibm_exit : K Unit := do
  input_unregister_device
  release_region LOGDBM_BASE LOGDBM_EXTENT

/-! ## Observations on runs and traces -/

/-- The events a run of f adds to the trace of k. -/
def emitted {α : Type} (f : K α) (k : Kernel) : List Event :=
  (f.run k).2.trace.drop k.trace.length

/-- The byte the hardware answers to the i-th next read of the data port. -/
def data_read (k : Kernel) (i : Nat) : Nat :=
  (k.env.port_in LOGDBM_DATA_PORT (k.nreads + i)).val

/-- The 8-bit twos-complement reading of a number: its low byte, taken as a
signed value. -/
def s8 (n : Nat) : Int :=
  if n % 256 < 128 then (n % 256 : Nat) else (n % 256 : Nat) - 256

/-- The value of a plain char variable holding the low byte of n: the 8-bit
twos-complement reading where plain char is signed, the byte itself where it
is unsigned. -/
def char_reading (signed : Bool) (n : Nat) : Int :=
  if signed then s8 n else ((n % 256 : Nat) : Int)

/-- The values reported for one relative axis, in order. -/
def rel_reports (c : RelCode) : List Event → List Int
  | [] => []
  | Event.report_rel c1 v :: es =>
    if c1 = c then v :: rel_reports c es else rel_reports c es
  | _ :: es => rel_reports c es

/-- The values reported for one button, in order. -/
def key_reports (c : KeyCode) : List Event → List Int
  | [] => []
  | Event.report_key c1 v :: es =>
    if c1 = c then v :: key_reports c es else key_reports c es
  | _ :: es => key_reports c es

/-- Whether an event is a port access. -/
def is_port_access : Event → Bool
  | Event.outb _ _ => true
  | Event.inb _ _ => true
  | _ => false

/-- The port an event touches, if it is a port access. -/
def port_of : Event → Option Nat
  | Event.outb _ p => some p
  | Event.inb p _ => some p
  | _ => none

/-- The port accesses of a trace, in order. -/
def port_accesses (es : List Event) : List Event := es.filter is_port_access

/-- The last value written to a port, if any. -/
def last_outb (port : Nat) : List Event → Option Nat
  | [] => none
  | Event.outb v p :: es =>
    match last_outb port es with
    | some w => some w
    | none => if p = port then some v else none
  | _ :: es => last_outb port es

/-- Number of calls of free_irq in a trace. -/
def irq_releases : List Event → Nat
  | [] => 0
  | Event.free_irq _ :: es => irq_releases es + 1
  | _ :: es => irq_releases es

/-- Number of successful calls of request_irq in a trace. -/
def irq_acquisitions : List Event → Nat
  | [] => 0
  | Event.request_irq _ ret :: es =>
    if ret = 0 then irq_acquisitions es + 1 else irq_acquisitions es
  | _ :: es => irq_acquisitions es

/-- The kernel at module load: the driver holds nothing, nothing has happened
yet; the port range and the interrupt line may be taken by somebody else. -/
def boot (env : Env) (irq : Nat) (region_taken irq_taken : Bool) : Kernel :=
  { env := env,
    logibm_irq := irq,
    logibm_dev := none,
    region := if region_taken then Holder.other else Holder.nobody,
    irq_line := if irq_taken then Holder.other else Holder.nobody,
    dev_live := false,
    dev_registered := false,
    nreads := 0,
    trace := [] }

/-- A simulated port space answering every port read with the same byte. -/
def const_ports (b : Fin 256) : Nat → Nat → Fin 256 := fun _ _ => b

/-- The port space of the documentation example: successive reads answer
0x03, 0xFF, 0x10 and then 0x1F. -/
def example_ports : Nat → Nat → Fin 256 := fun _ n =>
  if n = 0 then 0x03 else if n = 1 then 0xFF else if n = 2 then 0x10 else 0x1F

/-- The 3-bit mask as the documentation words it: the byte inverted as a
byte, ((~b) & 0xFF), then shifted right by 5. -/
def spec_button_mask (b : Int) : Int :=
  Int.shiftRight (Int.land (Int.not b) 0xFF) 5

/-- An environment with the given port space in which every other external
step succeeds, built for an ABI with signed plain char. -/
def healthy_env (ports : Nat → Nat → Fin 256) : Env :=
  { port_in := ports, alloc_ok := true, register_ret := 0, irq_ret := 0,
    char_signed := true }

/-- The kernel at module load with the documentation example on the ports. -/
def example_kernel : Kernel := boot (healthy_env example_ports) LOGDBM_IRQ false false

/-- The kernel after a run of f from k. -/
def exec {α : Type} (f : K α) (k : Kernel) : Kernel := (f.run k).2

/-- An environment with a present device in which descriptor allocation
fails. -/
def nomem_env : Env :=
  { port_in := const_ports 0xa5, alloc_ok := false, register_ret := 0, irq_ret := 0,
    char_signed := true }

/-- An environment with a present device in which registration fails with
the given code. -/
def regfail_env (code : Int) : Env :=
  { port_in := const_ports 0xa5, alloc_ok := true, register_ret := code, irq_ret := 0,
    char_signed := true }

/-- An environment in which request_irq fails with the given code. -/
def irqfail_env (code : Int) : Env :=
  { port_in := const_ports 0xa5, alloc_ok := true, register_ret := 0, irq_ret := code,
    char_signed := true }

/-! ## Symbolic execution of the driver -/

theorem logibm_interrupt_run (k : Kernel) :
    logibm_interrupt.run k =
      (irqreturn_t.IRQ_HANDLED,
       { k with
         nreads := k.nreads + 4,
         trace := k.trace ++
           [Event.outb 0x80 0x23e,
            Event.inb 0x23c (k.env.port_in 0x23c k.nreads),
            Event.outb 0xa0 0x23e,
            Event.inb 0x23c (k.env.port_in 0x23c (k.nreads + 1)),
            Event.outb 0xc0 0x23e,
            Event.inb 0x23c (k.env.port_in 0x23c (k.nreads + 2)),
            Event.outb 0xe0 0x23e,
            Event.inb 0x23c (k.env.port_in 0x23c (k.nreads + 3)),
            Event.report_rel RelCode.REL_X
              (to_char k.env.char_signed
                (Int.lor (to_char k.env.char_signed
                    (Int.land (k.env.port_in 0x23c k.nreads).val 0xf))
                  (Int.land (k.env.port_in 0x23c (k.nreads + 1)).val 0xf <<< (4 : Int)))),
            Event.report_rel RelCode.REL_Y
              (to_char k.env.char_signed
                (Int.lor (to_char k.env.char_signed
                    (Int.land (k.env.port_in 0x23c (k.nreads + 2)).val 0xf))
                  (Int.land (to_uchar (k.env.port_in 0x23c (k.nreads + 3)).val) 0xf
                    <<< (4 : Int)))),
            Event.report_key KeyCode.BTN_RIGHT
              (Int.land (logibm_buttons (to_uchar (k.env.port_in 0x23c (k.nreads + 3)).val)) 1),
            Event.report_key KeyCode.BTN_MIDDLE
              (Int.land (logibm_buttons (to_uchar (k.env.port_in 0x23c (k.nreads + 3)).val)) 2),
            Event.report_key KeyCode.BTN_LEFT
              (Int.land (logibm_buttons (to_uchar (k.env.port_in 0x23c (k.nreads + 3)).val)) 4),
            Event.sync,
            Event.outb 0x00 0x23e] }) := by
  simp [logibm_interrupt, outb, inb, input_report_rel, input_report_key, input_sync,
    StateT.run, bind, StateT.bind, modify, modifyGet, MonadStateOf.modifyGet, StateT.modifyGet,
    get, getThe, MonadStateOf.get, StateT.get, set, StateT.set, pure, StateT.pure,
    LOGDBM_READ_X_LOW, LOGDBM_READ_X_HIGH, LOGDBM_READ_Y_LOW, LOGDBM_READ_Y_HIGH,
    LOGDBM_CONTROL_PORT, LOGDBM_DATA_PORT, LOGDBM_BASE, LOGDBM_ENABLE_IRQ, Nat.add_assoc]

theorem to_uchar_byte (b : Fin 256) : to_uchar (b.val : Int) = (b.val : Int) := by
  unfold to_uchar
  have := b.isLt
  omega

theorem nibble_join (signed : Bool) (x y : Nat) (hx : x < 16) (hy : y < 16) :
    to_char signed (Int.lor (to_char signed (x : Int)) ((y : Int) <<< (4 : Int))) =
      char_reading signed ((y <<< 4) ||| x) := by
  cases signed <;> interval_cases x <;> interval_cases y <;> rfl

theorem logibm_buttons_eq (b : Nat) (hb : b < 256) :
    logibm_buttons (b : Int) = 255 - ((b / 32 : Nat) : Int) := by
  have h : Int.not (b : Int) = Int.negSucc b := rfl
  have h2 : Int.shiftRight (Int.negSucc b) 5 = Int.negSucc (b >>> 5) := rfl
  unfold logibm_buttons to_uchar
  rw [h, h2, Nat.shiftRight_eq_div_pow, Int.negSucc_eq]
  have : b / 2 ^ 5 < 8 := by omega
  have e : b / 2 ^ 5 = b / 32 := rfl
  omega

theorem logibm_open_ok (k : Kernel) (hfree : k.irq_line = Holder.nobody)
    (hret : k.env.irq_ret = 0) :
    logibm_open.run k =
      (0, { k with
            irq_line := Holder.driver,
            trace := k.trace ++ [Event.request_irq k.logibm_irq 0, Event.outb 0x00 0x23e] }) := by
  simp [logibm_open, request_irq, outb, hfree, hret,
    StateT.run, bind, StateT.bind, modify, modifyGet, MonadStateOf.modifyGet, StateT.modifyGet,
    get, getThe, MonadStateOf.get, StateT.get, set, StateT.set, pure, StateT.pure,
    LOGDBM_CONTROL_PORT, LOGDBM_BASE, LOGDBM_ENABLE_IRQ]

theorem logibm_open_fail (k : Kernel)
    (hfail : (if k.irq_line = Holder.nobody then k.env.irq_ret else -EBUSY) ≠ 0) :
    logibm_open.run k =
      (-EBUSY, { k with
            trace := k.trace ++ [Event.request_irq k.logibm_irq
              (if k.irq_line = Holder.nobody then k.env.irq_ret else -EBUSY)] }) := by
  simp [logibm_open, request_irq, outb, hfail,
    StateT.run, bind, StateT.bind, modify, modifyGet, MonadStateOf.modifyGet, StateT.modifyGet,
    get, getThe, MonadStateOf.get, StateT.get, set, StateT.set, pure, StateT.pure]

theorem logibm_close_run (k : Kernel) :
    logibm_close.run k =
      ((), { k with
            irq_line := if k.irq_line = Holder.driver then Holder.nobody else k.irq_line,
            trace := k.trace ++ [Event.outb 0x10 0x23e, Event.free_irq k.logibm_irq] }) := by
  simp [logibm_close, free_irq, outb,
    StateT.run, bind, StateT.bind, modify, modifyGet, MonadStateOf.modifyGet, StateT.modifyGet,
    get, getThe, MonadStateOf.get, StateT.get, set, StateT.set, pure, StateT.pure,
    LOGDBM_CONTROL_PORT, LOGDBM_BASE, LOGDBM_DISABLE_IRQ]

theorem logibm_init_busy (env : Env) (irq : Nat) (it : Bool) :
    logibm_init.run (boot env irq true it) =
      (-EBUSY, { boot env irq true it with
                 trace := [Event.request_region 0x23c 4 false] }) := by
  simp [logibm_init, request_region, boot,
    StateT.run, bind, StateT.bind, modify, modifyGet, MonadStateOf.modifyGet, StateT.modifyGet,
    get, getThe, MonadStateOf.get, StateT.get, set, StateT.set, pure, StateT.pure,
    LOGDBM_BASE, LOGDBM_EXTENT]

theorem logibm_init_nodev (env : Env) (irq : Nat) (it : Bool)
    (hsig : (env.port_in 0x23d 0).val ≠ 0xa5) :
    logibm_init.run (boot env irq false it) =
      (-ENODEV, { boot env irq false it with
                  nreads := 1,
                  trace := [Event.request_region 0x23c 4 true,
                            Event.outb 0x91 0x23f,
                            Event.outb 0xa5 0x23d,
                            Event.udelay 100,
                            Event.inb 0x23d (env.port_in 0x23d 0),
                            Event.release_region 0x23c 4] }) := by
  have h : ¬ (((env.port_in 0x23d 0).val : Int) = 165) := by omega
  simp [logibm_init, request_region, release_region, err_release_region, outb, inb, udelay,
    boot, h,
    StateT.run, bind, StateT.bind, modify, modifyGet, MonadStateOf.modifyGet, StateT.modifyGet,
    get, getThe, MonadStateOf.get, StateT.get, set, StateT.set, pure, StateT.pure,
    LOGDBM_BASE, LOGDBM_EXTENT, LOGDBM_CONFIG_BYTE, LOGDBM_CONFIG_PORT, LOGDBM_SIGNATURE_BYTE,
    LOGDBM_SIGNATURE_PORT]

theorem logibm_init_nomem (env : Env) (irq : Nat) (it : Bool)
    (hsig : (env.port_in 0x23d 0).val = 0xa5) (halloc : env.alloc_ok = false) :
    logibm_init.run (boot env irq false it) =
      (-ENOMEM, { boot env irq false it with
                  nreads := 1,
                  trace := [Event.request_region 0x23c 4 true,
                            Event.outb 0x91 0x23f,
                            Event.outb 0xa5 0x23d,
                            Event.udelay 100,
                            Event.inb 0x23d (env.port_in 0x23d 0),
                            Event.outb 0x90 0x23f,
                            Event.outb 0x10 0x23e,
                            Event.allocate_device false,
                            Event.release_region 0x23c 4] }) := by
  have h : (((env.port_in 0x23d 0).val : Int) = 165) := by omega
  simp [logibm_init, request_region, release_region, err_release_region, outb, inb, udelay,
    input_allocate_device, boot, h, halloc,
    StateT.run, bind, StateT.bind, modify, modifyGet, MonadStateOf.modifyGet, StateT.modifyGet,
    get, getThe, MonadStateOf.get, StateT.get, set, StateT.set, pure, StateT.pure,
    LOGDBM_BASE, LOGDBM_EXTENT, LOGDBM_CONFIG_BYTE, LOGDBM_CONFIG_PORT, LOGDBM_SIGNATURE_BYTE,
    LOGDBM_SIGNATURE_PORT, LOGDBM_DEFAULT_MODE, LOGDBM_DISABLE_IRQ, LOGDBM_CONTROL_PORT]

theorem logibm_init_regfail (env : Env) (irq : Nat) (it : Bool)
    (hsig : (env.port_in 0x23d 0).val = 0xa5) (halloc : env.alloc_ok = true)
    (hreg : env.register_ret ≠ 0) :
    logibm_init.run (boot env irq false it) =
      (env.register_ret, { boot env irq false it with
                  logibm_dev := some
                    { name := "Logitech bus mouse", phys := "isa023c/input0",
                      vendor := 0x0003, product := 0x0001, version := 0x0100,
                      evbit_key := true, evbit_rel := true,
                      keybit := [KeyCode.BTN_LEFT, KeyCode.BTN_MIDDLE, KeyCode.BTN_RIGHT],
                      relbit := [RelCode.REL_X, RelCode.REL_Y],
                      has_open := true, has_close := true },
                  nreads := 1,
                  trace := [Event.request_region 0x23c 4 true,
                            Event.outb 0x91 0x23f,
                            Event.outb 0xa5 0x23d,
                            Event.udelay 100,
                            Event.inb 0x23d (env.port_in 0x23d 0),
                            Event.outb 0x90 0x23f,
                            Event.outb 0x10 0x23e,
                            Event.allocate_device true,
                            Event.register_device env.register_ret,
                            Event.free_device,
                            Event.release_region 0x23c 4] }) := by
  have h : (((env.port_in 0x23d 0).val : Int) = 165) := by omega
  simp [logibm_init, request_region, release_region, err_release_region, err_free_dev,
    outb, inb, udelay,
    input_allocate_device, input_register_device, input_free_device, boot, h, halloc, hreg,
    StateT.run, bind, StateT.bind, modify, modifyGet, MonadStateOf.modifyGet, StateT.modifyGet,
    get, getThe, MonadStateOf.get, StateT.get, set, StateT.set, pure, StateT.pure,
    LOGDBM_BASE, LOGDBM_EXTENT, LOGDBM_CONFIG_BYTE, LOGDBM_CONFIG_PORT, LOGDBM_SIGNATURE_BYTE,
    LOGDBM_SIGNATURE_PORT, LOGDBM_DEFAULT_MODE, LOGDBM_DISABLE_IRQ, LOGDBM_CONTROL_PORT]

theorem logibm_init_ok (env : Env) (irq : Nat) (it : Bool)
    (hsig : (env.port_in 0x23d 0).val = 0xa5) (halloc : env.alloc_ok = true)
    (hreg : env.register_ret = 0) :
    logibm_init.run (boot env irq false it) =
      (0, { boot env irq false it with
                  logibm_dev := some
                    { name := "Logitech bus mouse", phys := "isa023c/input0",
                      vendor := 0x0003, product := 0x0001, version := 0x0100,
                      evbit_key := true, evbit_rel := true,
                      keybit := [KeyCode.BTN_LEFT, KeyCode.BTN_MIDDLE, KeyCode.BTN_RIGHT],
                      relbit := [RelCode.REL_X, RelCode.REL_Y],
                      has_open := true, has_close := true },
                  region := Holder.driver,
                  dev_live := true,
                  dev_registered := true,
                  nreads := 1,
                  trace := [Event.request_region 0x23c 4 true,
                            Event.outb 0x91 0x23f,
                            Event.outb 0xa5 0x23d,
                            Event.udelay 100,
                            Event.inb 0x23d (env.port_in 0x23d 0),
                            Event.outb 0x90 0x23f,
                            Event.outb 0x10 0x23e,
                            Event.allocate_device true,
                            Event.register_device 0] }) := by
  have h : (((env.port_in 0x23d 0).val : Int) = 165) := by omega
  simp [logibm_init, request_region, release_region, err_release_region, err_free_dev,
    outb, inb, udelay,
    input_allocate_device, input_register_device, input_free_device, boot, h, halloc, hreg,
    StateT.run, bind, StateT.bind, modify, modifyGet, MonadStateOf.modifyGet, StateT.modifyGet,
    get, getThe, MonadStateOf.get, StateT.get, set, StateT.set, pure, StateT.pure,
    LOGDBM_BASE, LOGDBM_EXTENT, LOGDBM_CONFIG_BYTE, LOGDBM_CONFIG_PORT, LOGDBM_SIGNATURE_BYTE,
    LOGDBM_SIGNATURE_PORT, LOGDBM_DEFAULT_MODE, LOGDBM_DISABLE_IRQ, LOGDBM_CONTROL_PORT]

theorem land_0xf (n : Nat) : Int.land (n : Int) 0xf = ((n &&& 0xF : Nat) : Int) := rfl

set_option maxRecDepth 100000 in
theorem buttons_bits (b : Fin 256) :
    (Int.land (logibm_buttons (to_uchar (b.val : Int))) 1 ≠ 0 ↔ b.val.testBit 5 = false) ∧
    (Int.land (logibm_buttons (to_uchar (b.val : Int))) 2 ≠ 0 ↔ b.val.testBit 6 = false) ∧
    (Int.land (logibm_buttons (to_uchar (b.val : Int))) 4 ≠ 0 ↔ b.val.testBit 7 = false) := by
  revert b
  decide

set_option maxRecDepth 100000 in
theorem buttons_value (b : Fin 256) :
    logibm_buttons (b.val : Int) = (((0xF8 ||| ((b.val ^^^ 0xFF) >>> 5) : Nat)) : Int) ∧
    248 ≤ logibm_buttons (b.val : Int) ∧ logibm_buttons (b.val : Int) ≤ 255 ∧
    Int.land (logibm_buttons (b.val : Int)) 7 = ((((b.val ^^^ 0xFF) >>> 5 : Nat)) : Int) ∧
    (b.val ^^^ 0xFF) >>> 5 ≤ 7 := by
  revert b
  decide

theorem ldiff_255 (b : Nat) (hb : b < 256) : Nat.ldiff 255 b = b ^^^ 255 := by
  apply Nat.eq_of_testBit_eq
  intro i
  rw [Nat.testBit_ldiff, Nat.testBit_xor]
  have h255 : (255 : Nat) = 2 ^ 8 - 1 := rfl
  rw [h255, Nat.testBit_two_pow_sub_one]
  by_cases h : i < 8
  · simp [h]
  · have hlt : b < 2 ^ i := lt_of_lt_of_le hb (by
      have : 2 ^ 8 ≤ 2 ^ i := Nat.pow_le_pow_right (by decide) (by omega)
      simpa using this)
    simp [h, Nat.testBit_lt_two_pow hlt]

theorem not_land_0xFF (b : Nat) (hb : b < 256) :
    Int.land (Int.not (b : Int)) 0xFF = ((b ^^^ 0xFF : Nat) : Int) := by
  have h : Int.land (Int.not (b : Int)) 0xFF = ((Nat.ldiff 255 b : Nat) : Int) := rfl
  rw [h, ldiff_255 b hb]

theorem emitted_interrupt (k : Kernel) :
    emitted logibm_interrupt k =
      [Event.outb 0x80 0x23e,
       Event.inb 0x23c (k.env.port_in 0x23c k.nreads),
       Event.outb 0xa0 0x23e,
       Event.inb 0x23c (k.env.port_in 0x23c (k.nreads + 1)),
       Event.outb 0xc0 0x23e,
       Event.inb 0x23c (k.env.port_in 0x23c (k.nreads + 2)),
       Event.outb 0xe0 0x23e,
       Event.inb 0x23c (k.env.port_in 0x23c (k.nreads + 3)),
       Event.report_rel RelCode.REL_X
         (char_reading k.env.char_signed
           (((data_read k 1 &&& 0xF) <<< 4) ||| (data_read k 0 &&& 0xF))),
       Event.report_rel RelCode.REL_Y
         (char_reading k.env.char_signed
           (((data_read k 3 &&& 0xF) <<< 4) ||| (data_read k 2 &&& 0xF))),
       Event.report_key KeyCode.BTN_RIGHT
         (Int.land (logibm_buttons (to_uchar (data_read k 3 : Int))) 1),
       Event.report_key KeyCode.BTN_MIDDLE
         (Int.land (logibm_buttons (to_uchar (data_read k 3 : Int))) 2),
       Event.report_key KeyCode.BTN_LEFT
         (Int.land (logibm_buttons (to_uchar (data_read k 3 : Int))) 4),
       Event.sync,
       Event.outb 0x00 0x23e] := by
  have hx := nibble_join k.env.char_signed (data_read k 0 &&& 0xF) (data_read k 1 &&& 0xF)
    (by have := @Nat.and_le_right (data_read k 0) 0xF; omega)
    (by have := @Nat.and_le_right (data_read k 1) 0xF; omega)
  have hy := nibble_join k.env.char_signed (data_read k 2 &&& 0xF) (data_read k 3 &&& 0xF)
    (by have := @Nat.and_le_right (data_read k 2) 0xF; omega)
    (by have := @Nat.and_le_right (data_read k 3) 0xF; omega)
  rw [← hx, ← hy]
  unfold emitted
  rw [logibm_interrupt_run]
  simp only [List.drop_left, to_uchar_byte, land_0xf, data_read, LOGDBM_DATA_PORT, LOGDBM_BASE,
    Nat.add_zero]

/-- C2: for every byte b answered to the fourth data-port read, exactly one
value is reported for each button; BTN_RIGHT is reported pressed (value not
zero) exactly when bit 5 of b is clear, BTN_MIDDLE exactly when bit 6 is
clear, BTN_LEFT exactly when bit 7 is clear; b = 0x1F reports all three
pressed, b = 0xFF none; and runs whose fourth bytes differ only in the low
five bits report the same button values. -/
theorem C2_button_mapping (k : Kernel) :
    ∃ vr vm vl : Int,
      key_reports KeyCode.BTN_RIGHT (emitted logibm_interrupt k) = [vr] ∧
      key_reports KeyCode.BTN_MIDDLE (emitted logibm_interrupt k) = [vm] ∧
      key_reports KeyCode.BTN_LEFT (emitted logibm_interrupt k) = [vl] ∧
      (vr ≠ 0 ↔ (data_read k 3).testBit 5 = false) ∧
      (vm ≠ 0 ↔ (data_read k 3).testBit 6 = false) ∧
      (vl ≠ 0 ↔ (data_read k 3).testBit 7 = false) ∧
      (data_read k 3 = 0x1F → vr ≠ 0 ∧ vm ≠ 0 ∧ vl ≠ 0) ∧
      (data_read k 3 = 0xFF → vr = 0 ∧ vm = 0 ∧ vl = 0) ∧
      (∀ k2 : Kernel, data_read k2 3 / 32 = data_read k 3 / 32 →
        key_reports KeyCode.BTN_RIGHT (emitted logibm_interrupt k2) = [vr] ∧
        key_reports KeyCode.BTN_MIDDLE (emitted logibm_interrupt k2) = [vm] ∧
        key_reports KeyCode.BTN_LEFT (emitted logibm_interrupt k2) = [vl]) := by
  have hR : ∀ k : Kernel, key_reports KeyCode.BTN_RIGHT (emitted logibm_interrupt k) =
      [Int.land (logibm_buttons (to_uchar (data_read k 3 : Int))) 1] := by
    intro k
    rw [emitted_interrupt]
    simp [key_reports]
  have hM : ∀ k : Kernel, key_reports KeyCode.BTN_MIDDLE (emitted logibm_interrupt k) =
      [Int.land (logibm_buttons (to_uchar (data_read k 3 : Int))) 2] := by
    intro k
    rw [emitted_interrupt]
    simp [key_reports]
  have hL : ∀ k : Kernel, key_reports KeyCode.BTN_LEFT (emitted logibm_interrupt k) =
      [Int.land (logibm_buttons (to_uchar (data_read k 3 : Int))) 4] := by
    intro k
    rw [emitted_interrupt]
    simp [key_reports]
  have hbits := buttons_bits (k.env.port_in LOGDBM_DATA_PORT (k.nreads + 3))
  have hlt : ∀ k : Kernel, data_read k 3 < 256 := fun k =>
    (k.env.port_in LOGDBM_DATA_PORT (k.nreads + 3)).isLt
  have hbtn : ∀ k : Kernel, logibm_buttons (to_uchar (data_read k 3 : Int)) =
      255 - ((data_read k 3 / 32 : Nat) : Int) := by
    intro k
    have h1 : to_uchar (data_read k 3 : Int) = (data_read k 3 : Int) :=
      to_uchar_byte (k.env.port_in LOGDBM_DATA_PORT (k.nreads + 3))
    rw [h1, logibm_buttons_eq _ (hlt k)]
  refine ⟨_, _, _, hR k, hM k, hL k, hbits.1, hbits.2.1, hbits.2.2, ?_, ?_, ?_⟩
  · intro h
    rw [hbtn, h]
    decide
  · intro h
    rw [hbtn, h]
    decide
  · intro k2 h
    rw [hR, hM, hL, hbtn k2, hbtn k, h]
    exact ⟨rfl, rfl, rfl⟩

/-- C2, at the documentation example: the fourth read 0x1F at module load
reports all three buttons pressed. -/
theorem C2_button_mapping_witness :
    ∃ vr vm vl : Int,
      key_reports KeyCode.BTN_RIGHT (emitted logibm_interrupt example_kernel) = [vr] ∧
      key_reports KeyCode.BTN_MIDDLE (emitted logibm_interrupt example_kernel) = [vm] ∧
      key_reports KeyCode.BTN_LEFT (emitted logibm_interrupt example_kernel) = [vl] ∧
      vr ≠ 0 ∧ vm ≠ 0 ∧ vl ≠ 0 := by
  obtain ⟨vr, vm, vl, hr, hm, hl, _, _, _, h1F, _, _⟩ := C2_button_mapping example_kernel
  exact ⟨vr, vm, vl, hr, hm, hl, h1F (by decide)⟩

/-- C3: one invocation of logibm_interrupt, whatever the data port answers,
writes LOGDBM_ENABLE_IRQ to the control port exactly once and emits exactly
one synchronization marker; its events are some port accesses followed by one
REL_X, one REL_Y, one BTN_RIGHT, one BTN_MIDDLE and one BTN_LEFT report in
that order, then the marker, then the enable write, which is the last event
of the invocation. -/
theorem C3_rearm_once_sync_once (k : Kernel) :
    (emitted logibm_interrupt k).count
        (Event.outb LOGDBM_ENABLE_IRQ LOGDBM_CONTROL_PORT) = 1 ∧
    (emitted logibm_interrupt k).count Event.sync = 1 ∧
    (rel_reports RelCode.REL_X (emitted logibm_interrupt k)).length = 1 ∧
    (rel_reports RelCode.REL_Y (emitted logibm_interrupt k)).length = 1 ∧
    (key_reports KeyCode.BTN_RIGHT (emitted logibm_interrupt k)).length = 1 ∧
    (key_reports KeyCode.BTN_MIDDLE (emitted logibm_interrupt k)).length = 1 ∧
    (key_reports KeyCode.BTN_LEFT (emitted logibm_interrupt k)).length = 1 ∧
    (∃ (pre : List Event) (dx dy vr vm vl : Int),
      emitted logibm_interrupt k =
        pre ++ [Event.report_rel RelCode.REL_X dx,
                Event.report_rel RelCode.REL_Y dy,
                Event.report_key KeyCode.BTN_RIGHT vr,
                Event.report_key KeyCode.BTN_MIDDLE vm,
                Event.report_key KeyCode.BTN_LEFT vl,
                Event.sync,
                Event.outb LOGDBM_ENABLE_IRQ LOGDBM_CONTROL_PORT] ∧
      pre.all is_port_access = true) := by
  rw [emitted_interrupt]
  refine ⟨?_, ?_, ?_, ?_, ?_, ?_, ?_, ?_⟩
  · simp [LOGDBM_ENABLE_IRQ, LOGDBM_CONTROL_PORT, LOGDBM_BASE, List.count_cons]
  · simp [List.count_cons]
  · simp [rel_reports]
  · simp [rel_reports]
  · simp [key_reports]
  · simp [key_reports]
  · simp [key_reports]
  · exact ⟨[Event.outb 0x80 0x23e,
       Event.inb 0x23c (k.env.port_in 0x23c k.nreads),
       Event.outb 0xa0 0x23e,
       Event.inb 0x23c (k.env.port_in 0x23c (k.nreads + 1)),
       Event.outb 0xc0 0x23e,
       Event.inb 0x23c (k.env.port_in 0x23c (k.nreads + 2)),
       Event.outb 0xe0 0x23e,
       Event.inb 0x23c (k.env.port_in 0x23c (k.nreads + 3))], _, _, _, _, _, rfl, rfl⟩

/-- C10: the port accesses of one invocation of logibm_interrupt are, in
order: write 0x80 to the control port 0x23e, read the data port 0x23c, write
0xa0, read, write 0xc0, read, write 0xe0, read, write 0x00 to the control
port; every port touched lies in 0x23c..0x23f and is neither the signature
port nor the config port; the handler returns IRQ_HANDLED on every input. -/
theorem C10_port_protocol (k : Kernel) :
    port_accesses (emitted logibm_interrupt k) =
      [Event.outb 0x80 0x23e,
       Event.inb 0x23c (k.env.port_in LOGDBM_DATA_PORT k.nreads),
       Event.outb 0xa0 0x23e,
       Event.inb 0x23c (k.env.port_in LOGDBM_DATA_PORT (k.nreads + 1)),
       Event.outb 0xc0 0x23e,
       Event.inb 0x23c (k.env.port_in LOGDBM_DATA_PORT (k.nreads + 2)),
       Event.outb 0xe0 0x23e,
       Event.inb 0x23c (k.env.port_in LOGDBM_DATA_PORT (k.nreads + 3)),
       Event.outb 0x00 0x23e] ∧
    LOGDBM_CONTROL_PORT = 0x23e ∧ LOGDBM_DATA_PORT = 0x23c ∧
    (emitted logibm_interrupt k).all (fun e =>
      match port_of e with
      | some p => decide (0x23c ≤ p ∧ p ≤ 0x23f ∧
                          p ≠ LOGDBM_SIGNATURE_PORT ∧ p ≠ LOGDBM_CONFIG_PORT)
      | none => true) = true ∧
    (logibm_interrupt.run k).1 = irqreturn_t.IRQ_HANDLED := by
  refine ⟨?_, rfl, rfl, ?_, ?_⟩
  · rw [emitted_interrupt]
    simp [port_accesses, is_port_access, List.filter, LOGDBM_DATA_PORT, LOGDBM_BASE]
  · rw [emitted_interrupt]
    simp [port_of, LOGDBM_SIGNATURE_PORT, LOGDBM_CONFIG_PORT, LOGDBM_BASE]
  · rw [logibm_interrupt_run]

/-- C9, as stated, fails: for the byte 0x1F the variable buttons holds 255
after the statement, which is neither in 0..7 nor equal to the 3-bit mask 7
of the documentation. -/
theorem C9_counterexample :
    logibm_buttons 0x1F = 255 ∧ spec_button_mask 0x1F = 7 ∧
    ¬ (0 ≤ logibm_buttons 0x1F ∧ logibm_buttons 0x1F ≤ 7 ∧
       logibm_buttons 0x1F = spec_button_mask 0x1F) := by
  have h1 : logibm_buttons 0x1F = 255 := by decide
  have h2 : spec_button_mask 0x1F = 7 := by
    unfold spec_button_mask
    have := not_land_0xFF 0x1F (by decide)
    simp only [Nat.cast_ofNat] at this
    rw [this]
    decide
  refine ⟨h1, h2, ?_⟩
  rw [h1]
  decide

/-- C9, amended: for every byte b answered to the fourth data-port read, the
value held in buttons after buttons = ~buttons >> 5 is 0xF8 | m, where m is
the 3-bit mask ((~b) & 0xFF) >> 5 of the documentation; it lies in 248..255,
m lies in 0..7, and the low three bits of buttons, buttons & 7, equal m. -/
theorem C9_buttons_value (b : Fin 256) :
    logibm_buttons (to_uchar (b.val : Int)) = Int.lor 0xF8 (spec_button_mask (b.val : Int)) ∧
    248 ≤ logibm_buttons (to_uchar (b.val : Int)) ∧
    logibm_buttons (to_uchar (b.val : Int)) ≤ 255 ∧
    0 ≤ spec_button_mask (b.val : Int) ∧ spec_button_mask (b.val : Int) ≤ 7 ∧
    Int.land (logibm_buttons (to_uchar (b.val : Int))) 7 = spec_button_mask (b.val : Int) := by
  have hm : spec_button_mask (b.val : Int) = ((((b.val ^^^ 0xFF) >>> 5 : Nat)) : Int) := by
    unfold spec_button_mask
    rw [not_land_0xFF b.val b.isLt]
    rfl
  obtain ⟨h1, h2, h3, h4, h5⟩ := buttons_value b
  rw [to_uchar_byte, hm]
  refine ⟨?_, h2, h3, ?_, ?_, h4⟩
  · rw [h1]
    rfl
  · exact Int.natCast_nonneg _
  · exact_mod_cast h5

/-! ## Module load -/

/-- C4, as stated, fails: with the port range available and the signature
read back as 0xa5, logibm_init still returns -ENOMEM, not 0, when the
descriptor allocation fails. -/
theorem C4_counterexample :
    (boot nomem_env LOGDBM_IRQ false false).region = Holder.nobody ∧
    (nomem_env.port_in LOGDBM_SIGNATURE_PORT 0).val = LOGDBM_SIGNATURE_BYTE ∧
    (logibm_init.run (boot nomem_env LOGDBM_IRQ false false)).1 = -ENOMEM ∧
    ¬ ((logibm_init.run (boot nomem_env LOGDBM_IRQ false false)).1 = 0) := by
  have h := logibm_init_nomem nomem_env LOGDBM_IRQ false (by decide) rfl
  refine ⟨rfl, by decide, ?_, ?_⟩
  · rw [h]
  · rw [h]
    decide

/-- C4, amended: from module load with the port range available, logibm_init
first writes 0x91 to the config port, then 0xa5 to the signature port, waits,
then reads the signature port. If the byte read back is 0xa5 and descriptor
allocation and registration succeed, it returns 0. If the byte read back is
any other byte it returns -ENODEV; its whole trace is the probe followed by
the release of the port range, so it has neither allocated nor registered a
descriptor nor written 0x90 to the config port; the range is free again and a
new request for it succeeds. -/
theorem C4_probe_sequence (env : Env) (irq : Nat) (it : Bool) :
    (logibm_init.run (boot env irq false it)).2.trace.take 5 =
      [Event.request_region LOGDBM_BASE LOGDBM_EXTENT true,
       Event.outb LOGDBM_CONFIG_BYTE LOGDBM_CONFIG_PORT,
       Event.outb LOGDBM_SIGNATURE_BYTE LOGDBM_SIGNATURE_PORT,
       Event.udelay 100,
       Event.inb LOGDBM_SIGNATURE_PORT (env.port_in LOGDBM_SIGNATURE_PORT 0)] ∧
    ((env.port_in LOGDBM_SIGNATURE_PORT 0).val = LOGDBM_SIGNATURE_BYTE →
      env.alloc_ok = true → env.register_ret = 0 →
      (logibm_init.run (boot env irq false it)).1 = 0) ∧
    ((env.port_in LOGDBM_SIGNATURE_PORT 0).val ≠ LOGDBM_SIGNATURE_BYTE →
      (logibm_init.run (boot env irq false it)).1 = -ENODEV ∧
      (logibm_init.run (boot env irq false it)).2.trace =
        [Event.request_region LOGDBM_BASE LOGDBM_EXTENT true,
         Event.outb LOGDBM_CONFIG_BYTE LOGDBM_CONFIG_PORT,
         Event.outb LOGDBM_SIGNATURE_BYTE LOGDBM_SIGNATURE_PORT,
         Event.udelay 100,
         Event.inb LOGDBM_SIGNATURE_PORT (env.port_in LOGDBM_SIGNATURE_PORT 0),
         Event.release_region LOGDBM_BASE LOGDBM_EXTENT] ∧
      Event.outb LOGDBM_DEFAULT_MODE LOGDBM_CONFIG_PORT ∉
        (logibm_init.run (boot env irq false it)).2.trace ∧
      (logibm_init.run (boot env irq false it)).2.region = Holder.nobody ∧
      ((request_region LOGDBM_BASE LOGDBM_EXTENT).run
        (logibm_init.run (boot env irq false it)).2).1 = true ∧
      (logibm_init.run (boot env irq false it)).2.logibm_dev = none ∧
      (logibm_init.run (boot env irq false it)).2.dev_live = false ∧
      (logibm_init.run (boot env irq false it)).2.dev_registered = false) := by
  have hsigport : LOGDBM_SIGNATURE_PORT = 0x23d := rfl
  have hsigbyte : LOGDBM_SIGNATURE_BYTE = 0xa5 := rfl
  refine ⟨?_, ?_, ?_⟩
  · by_cases hs : (env.port_in 0x23d 0).val = 0xa5
    · by_cases ha : env.alloc_ok = true
      · by_cases hr : env.register_ret = 0
        · rw [logibm_init_ok env irq it hs ha hr]
          rfl
        · rw [logibm_init_regfail env irq it hs ha hr]
          rfl
      · rw [logibm_init_nomem env irq it hs (by simpa using ha)]
        rfl
    · rw [logibm_init_nodev env irq it hs]
      rfl
  · intro hs ha hr
    rw [logibm_init_ok env irq it hs ha hr]
  · intro hs
    rw [logibm_init_nodev env irq it hs]
    refine ⟨rfl, rfl, ?_, rfl, ?_, rfl, rfl, rfl⟩
    · simp [LOGDBM_DEFAULT_MODE, LOGDBM_CONFIG_PORT, LOGDBM_BASE, LOGDBM_CONFIG_BYTE,
        LOGDBM_SIGNATURE_BYTE, LOGDBM_SIGNATURE_PORT]
    · simp [request_region, boot,
        StateT.run, bind, StateT.bind, get, getThe, MonadStateOf.get, StateT.get, set,
        StateT.set, pure, StateT.pure]

/-- C4, amended, at concrete port spaces: a device answering 0xa5 loads, a
port space answering 0x00 gives -ENODEV and leaves the range free. -/
theorem C4_probe_sequence_witness :
    (logibm_init.run (boot (healthy_env (const_ports 0xa5)) LOGDBM_IRQ false false)).1 = 0 ∧
    (logibm_init.run (boot (healthy_env (const_ports 0x00)) LOGDBM_IRQ false false)).1
      = -ENODEV ∧
    (logibm_init.run (boot (healthy_env (const_ports 0x00)) LOGDBM_IRQ false false)).2.region
      = Holder.nobody :=
  ⟨(C4_probe_sequence (healthy_env (const_ports 0xa5)) LOGDBM_IRQ false).2.1
      (by decide) rfl rfl,
   ((C4_probe_sequence (healthy_env (const_ports 0x00)) LOGDBM_IRQ false).2.2
      (by decide)).1,
   ((C4_probe_sequence (healthy_env (const_ports 0x00)) LOGDBM_IRQ false).2.2
      (by decide)).2.2.2.1⟩

/-- C5: for every combination of outcomes of the external steps of
logibm_init at module load (port range taken or not, byte read back from the
signature port, descriptor allocation, registration result): at return the
port range is held by the driver exactly when 0 is returned, a descriptor is
registered exactly when 0 is returned, and on a non-zero return no allocated
descriptor is left. The result is -EBUSY, with no port access at all, when
the range is taken; -ENODEV on a signature mismatch; -ENOMEM when the
allocation fails; and the registration result itself when registration
fails. -/
theorem C5_load_rollback (env : Env) (irq : Nat) (rt it : Bool) :
    ((logibm_init.run (boot env irq rt it)).2.region = Holder.driver ↔
      (logibm_init.run (boot env irq rt it)).1 = 0) ∧
    ((logibm_init.run (boot env irq rt it)).2.dev_registered = true ↔
      (logibm_init.run (boot env irq rt it)).1 = 0) ∧
    ((logibm_init.run (boot env irq rt it)).1 ≠ 0 →
      (logibm_init.run (boot env irq rt it)).2.dev_live = false) ∧
    (rt = true →
      (logibm_init.run (boot env irq rt it)).1 = -EBUSY ∧
      port_accesses (logibm_init.run (boot env irq rt it)).2.trace = []) ∧
    (rt = false → (env.port_in LOGDBM_SIGNATURE_PORT 0).val ≠ LOGDBM_SIGNATURE_BYTE →
      (logibm_init.run (boot env irq rt it)).1 = -ENODEV) ∧
    (rt = false → (env.port_in LOGDBM_SIGNATURE_PORT 0).val = LOGDBM_SIGNATURE_BYTE →
      env.alloc_ok = false →
      (logibm_init.run (boot env irq rt it)).1 = -ENOMEM) ∧
    (rt = false → (env.port_in LOGDBM_SIGNATURE_PORT 0).val = LOGDBM_SIGNATURE_BYTE →
      env.alloc_ok = true → env.register_ret ≠ 0 →
      (logibm_init.run (boot env irq rt it)).1 = env.register_ret) := by
  have hsigport : LOGDBM_SIGNATURE_PORT = 0x23d := rfl
  have hsigbyte : LOGDBM_SIGNATURE_BYTE = 0xa5 := rfl
  rw [hsigport, hsigbyte]
  cases rt with
  | true =>
    rw [logibm_init_busy]
    simp [boot, EBUSY, port_accesses, is_port_access]
  | false =>
    by_cases hs : (env.port_in 0x23d 0).val = 0xa5
    · by_cases ha : env.alloc_ok = true
      · by_cases hr : env.register_ret = 0
        · rw [logibm_init_ok env irq it hs ha hr]
          simp [hs, ha, hr]
        · rw [logibm_init_regfail env irq it hs ha hr]
          simp [boot, hs, ha, hr]
      · have ha2 : env.alloc_ok = false := by simpa using ha
        rw [logibm_init_nomem env irq it hs ha2]
        simp [boot, hs, ha2, ENOMEM]
    · rw [logibm_init_nodev env irq it hs]
      simp [boot, hs, ENODEV]

/-- C5, at concrete outcomes: a taken port range gives -EBUSY, a failing
allocation gives -ENOMEM and leaves no descriptor, and a registration failing
with -22 gives -22. -/
theorem C5_load_rollback_witness :
    (logibm_init.run (boot nomem_env LOGDBM_IRQ true false)).1 = -EBUSY ∧
    (logibm_init.run (boot nomem_env LOGDBM_IRQ false false)).1 = -ENOMEM ∧
    (logibm_init.run (boot nomem_env LOGDBM_IRQ false false)).2.dev_live = false ∧
    (logibm_init.run (boot (regfail_env (-22)) LOGDBM_IRQ false false)).1 = -22 :=
  ⟨((C5_load_rollback nomem_env LOGDBM_IRQ true false).2.2.2.1 rfl).1,
   (C5_load_rollback nomem_env LOGDBM_IRQ false false).2.2.2.2.2.1 rfl (by decide) rfl,
   (C5_load_rollback nomem_env LOGDBM_IRQ false false).2.2.1
     (by rw [(C5_load_rollback nomem_env LOGDBM_IRQ false false).2.2.2.2.2.1 rfl
           (by decide) rfl]; decide),
   (C5_load_rollback (regfail_env (-22)) LOGDBM_IRQ false false).2.2.2.2.2.2
     rfl (by decide) rfl (by decide)⟩

/-! ## Activation and deactivation -/

theorem last_outb_append (port : Nat) (a b : List Event) :
    last_outb port (a ++ b) =
      match last_outb port b with
      | some w => some w
      | none => last_outb port a := by
  induction a with
  | nil =>
    simp only [List.nil_append, last_outb]
    cases last_outb port b <;> rfl
  | cons e a ih =>
    have ih2 : last_outb port (a.append b) =
        match last_outb port b with
        | some w => some w
        | none => last_outb port a := ih
    cases e <;> simp only [List.cons_append, last_outb, ih, ih2]
    cases last_outb port b <;> rfl

theorem open_succeeds_iff (k : Kernel) :
    (logibm_open.run k).1 = 0 ↔
      (if k.irq_line = Holder.nobody then k.env.irq_ret else -EBUSY) = 0 := by
  by_cases h : (if k.irq_line = Holder.nobody then k.env.irq_ret else -EBUSY) = 0
  · have hfree : k.irq_line = Holder.nobody := by
      by_contra hn
      simp [hn, EBUSY] at h
    have hret : k.env.irq_ret = 0 := by simpa [hfree] using h
    rw [logibm_open_ok k hfree hret]
    simp [h]
  · rw [logibm_open_fail k h]
    constructor
    · intro h0
      have h1 : (-EBUSY : Int) = 0 := h0
      simp [EBUSY] at h1
    · intro h0
      exact absurd h0 h

theorem request_irq_ret (k : Kernel) :
    ((request_irq k.logibm_irq).run k).1 =
      (if k.irq_line = Holder.nobody then k.env.irq_ret else -EBUSY) := by
  simp [request_irq, StateT.run, bind, StateT.bind, get, getThe, MonadStateOf.get,
    StateT.get, set, StateT.set, pure, StateT.pure]

/-- C6: starting from any state in which the interrupt line is free, a
successful logibm_open followed by logibm_close leaves the interrupt line
free and the last value written to the control port equal to
LOGDBM_DISABLE_IRQ = 0x10. logibm_open first acquires the line and only then
writes the enable byte 0x00; logibm_close first writes the disable byte and
then releases the line. -/
theorem C6_open_close (k : Kernel) (hfree : k.irq_line = Holder.nobody)
    (hopen : (logibm_open.run k).1 = 0) :
    (exec logibm_open k).irq_line = Holder.driver ∧
    (exec logibm_close (exec logibm_open k)).irq_line = Holder.nobody ∧
    last_outb LOGDBM_CONTROL_PORT (exec logibm_close (exec logibm_open k)).trace =
      some LOGDBM_DISABLE_IRQ ∧
    LOGDBM_DISABLE_IRQ = 0x10 ∧
    emitted logibm_open k =
      [Event.request_irq k.logibm_irq 0,
       Event.outb LOGDBM_ENABLE_IRQ LOGDBM_CONTROL_PORT] ∧
    emitted logibm_close (exec logibm_open k) =
      [Event.outb LOGDBM_DISABLE_IRQ LOGDBM_CONTROL_PORT,
       Event.free_irq k.logibm_irq] := by
  have hret : k.env.irq_ret = 0 := by
    have := (open_succeeds_iff k).1 hopen
    simpa [hfree] using this
  unfold exec emitted
  rw [logibm_open_ok k hfree hret, logibm_close_run]
  refine ⟨rfl, rfl, ?_, rfl, ?_, ?_⟩
  · simp only [last_outb_append]
    rfl
  · simp [LOGDBM_ENABLE_IRQ, LOGDBM_CONTROL_PORT, LOGDBM_BASE]
  · simp [LOGDBM_DISABLE_IRQ, LOGDBM_CONTROL_PORT, LOGDBM_BASE]

/-- C6, from the kernel at module load with a free interrupt line. -/
theorem C6_open_close_witness :
    (exec logibm_close (exec logibm_open example_kernel)).irq_line = Holder.nobody ∧
    last_outb LOGDBM_CONTROL_PORT (exec logibm_close (exec logibm_open example_kernel)).trace =
      some 0x10 :=
  ⟨(C6_open_close example_kernel rfl (by decide)).2.1,
   (C6_open_close example_kernel rfl (by decide)).2.2.1⟩

/-- C7: logibm_open returns 0 exactly when request_irq returns 0. When
request_irq fails, whatever code it reports, logibm_open returns -EBUSY, its
only event is the failed request (no port is written), and the holder of the
interrupt line, the registration, the descriptor and the holder of the port
range are unchanged; in particular a driver that did not hold the line
before the call does not hold it afterwards. -/
theorem C7_open_failure (k : Kernel) :
    ((logibm_open.run k).1 = 0 ↔ ((request_irq k.logibm_irq).run k).1 = 0) ∧
    (((request_irq k.logibm_irq).run k).1 ≠ 0 →
      (logibm_open.run k).1 = -EBUSY ∧
      emitted logibm_open k =
        [Event.request_irq k.logibm_irq ((request_irq k.logibm_irq).run k).1] ∧
      port_accesses (emitted logibm_open k) = [] ∧
      (exec logibm_open k).irq_line = k.irq_line ∧
      (k.irq_line ≠ Holder.driver → (exec logibm_open k).irq_line ≠ Holder.driver) ∧
      (exec logibm_open k).dev_registered = k.dev_registered ∧
      (exec logibm_open k).dev_live = k.dev_live ∧
      (exec logibm_open k).logibm_dev = k.logibm_dev ∧
      (exec logibm_open k).region = k.region) := by
  rw [request_irq_ret]
  refine ⟨open_succeeds_iff k, ?_⟩
  intro h
  unfold exec emitted
  rw [logibm_open_fail k h]
  refine ⟨rfl, ?_, ?_, rfl, fun hn => hn, rfl, rfl, rfl, rfl⟩
  · simp
  · simp [port_accesses, is_port_access]

/-- C7, at a free line on which request_irq fails with -ENOMEM: logibm_open
returns -EBUSY, writes no port and does not hold the line. -/
theorem C7_open_failure_witness :
    (logibm_open.run (boot (irqfail_env (-ENOMEM)) LOGDBM_IRQ false false)).1 = -EBUSY ∧
    port_accesses (emitted logibm_open (boot (irqfail_env (-ENOMEM)) LOGDBM_IRQ false false))
      = [] ∧
    (exec logibm_open (boot (irqfail_env (-ENOMEM)) LOGDBM_IRQ false false)).irq_line
      ≠ Holder.driver :=
  ⟨((C7_open_failure (boot (irqfail_env (-ENOMEM)) LOGDBM_IRQ false false)).2
      (by decide)).1,
   ((C7_open_failure (boot (irqfail_env (-ENOMEM)) LOGDBM_IRQ false false)).2
      (by decide)).2.2.1,
   ((C7_open_failure (boot (irqfail_env (-ENOMEM)) LOGDBM_IRQ false false)).2
      (by decide)).2.2.2.2.1 (by decide)⟩

/-- C8, as stated, fails: after a successful logibm_open and a logibm_close
from module load, a second logibm_close calls free_irq again; the trace then
holds two releases of the interrupt line against one successful
acquisition. -/
theorem C8_counterexample :
    (logibm_open.run example_kernel).1 = 0 ∧
    Event.free_irq LOGDBM_IRQ ∈
      emitted logibm_close (exec logibm_close (exec logibm_open example_kernel)) ∧
    irq_acquisitions
      (exec logibm_close (exec logibm_close (exec logibm_open example_kernel))).trace = 1 ∧
    irq_releases
      (exec logibm_close (exec logibm_close (exec logibm_open example_kernel))).trace = 2 ∧
    ¬ (irq_releases
        (exec logibm_close (exec logibm_close (exec logibm_open example_kernel))).trace ≤
       irq_acquisitions
        (exec logibm_close (exec logibm_close (exec logibm_open example_kernel))).trace) := by
  decide

/-- C8, amended: logibm_close has no guard. Every call, in every state,
writes the disable byte to the control port and then calls free_irq once. So
after a successful logibm_open and a logibm_close the driver does not hold
the interrupt line and has released it as often as it acquired it, and a
second logibm_close calls free_irq once more (one release more than
acquisitions) and leaves the line not held by the driver. -/
theorem C8_close_unguarded (k : Kernel) (hfree : k.irq_line = Holder.nobody)
    (hopen : (logibm_open.run k).1 = 0) :
    (∀ k2 : Kernel, emitted logibm_close k2 =
      [Event.outb LOGDBM_DISABLE_IRQ LOGDBM_CONTROL_PORT, Event.free_irq k2.logibm_irq]) ∧
    (exec logibm_close (exec logibm_open k)).irq_line = Holder.nobody ∧
    (exec logibm_close (exec logibm_open k)).trace =
      k.trace ++ [Event.request_irq k.logibm_irq 0,
                  Event.outb LOGDBM_ENABLE_IRQ LOGDBM_CONTROL_PORT,
                  Event.outb LOGDBM_DISABLE_IRQ LOGDBM_CONTROL_PORT,
                  Event.free_irq k.logibm_irq] ∧
    (exec logibm_close (exec logibm_close (exec logibm_open k))).irq_line = Holder.nobody ∧
    (exec logibm_close (exec logibm_close (exec logibm_open k))).trace =
      k.trace ++ [Event.request_irq k.logibm_irq 0,
                  Event.outb LOGDBM_ENABLE_IRQ LOGDBM_CONTROL_PORT,
                  Event.outb LOGDBM_DISABLE_IRQ LOGDBM_CONTROL_PORT,
                  Event.free_irq k.logibm_irq,
                  Event.outb LOGDBM_DISABLE_IRQ LOGDBM_CONTROL_PORT,
                  Event.free_irq k.logibm_irq] := by
  have hret : k.env.irq_ret = 0 := by
    have := (open_succeeds_iff k).1 hopen
    simpa [hfree] using this
  refine ⟨?_, ?_, ?_, ?_, ?_⟩
  · intro k2
    unfold emitted
    rw [logibm_close_run]
    simp [LOGDBM_DISABLE_IRQ, LOGDBM_CONTROL_PORT, LOGDBM_BASE]
  all_goals
    unfold exec
    rw [logibm_open_ok k hfree hret]
    simp [logibm_close_run, LOGDBM_DISABLE_IRQ, LOGDBM_ENABLE_IRQ, LOGDBM_CONTROL_PORT,
      LOGDBM_BASE]

/-- C8, amended, from the kernel at module load: open, close, close leaves
the trace with two calls of free_irq. -/
theorem C8_close_unguarded_witness :
    (exec logibm_close (exec logibm_close (exec logibm_open example_kernel))).trace =
      [Event.request_irq LOGDBM_IRQ 0,
       Event.outb LOGDBM_ENABLE_IRQ LOGDBM_CONTROL_PORT,
       Event.outb LOGDBM_DISABLE_IRQ LOGDBM_CONTROL_PORT,
       Event.free_irq LOGDBM_IRQ,
       Event.outb LOGDBM_DISABLE_IRQ LOGDBM_CONTROL_PORT,
       Event.free_irq LOGDBM_IRQ] :=
  (C8_close_unguarded example_kernel rfl (by decide)).2.2.2.2

end Logibm
